import Mathlib

/-!
Verification of the Angular frontend of the resume/ATS/image application.

The definitions below are shallow embeddings of the TypeScript source:
  * `Frontend.ApiService`            — core/services/api.service.ts
  * `Frontend.ImageService`          — core/services/image.service.ts
  * `Frontend.NotificationService`   — core/services/notification.service.ts
  * `Frontend.HttpErrorInterceptor`  — core/interceptors/error.interceptor.ts
  * `Frontend.AtsAnalyzerComponent`  — features/ats-analyzer/ats-analyzer.component.ts
  * `Frontend.ImageGenerationComponent` — features/image-generation component
  * `Frontend.ResumeFormComponent` / `Frontend.ResumeGeneratorComponent`
JavaScript string truthiness (`!s`, `s || t`) is modelled by emptiness tests;
an absent object field (`error.error?.detail`) is modelled by `Option`.
-/

namespace Frontend

/-- JavaScript `String.prototype.startsWith`: the second string is a prefix
of the first, decided character by character. -/
def startsWithStr (s p : String) : Bool :=
  p.data.isPrefixOf s.data

/-- JavaScript `a || b` where `a` is an optional string field: an absent or
empty string is falsy, so the fallback is used. -/
def jsOr (d : Option String) (fallback : String) : String :=
  match d with
  | some s => if s = "" then fallback else s
  | none => fallback

/-- JavaScript `a || b` on two strings: the empty string is falsy. -/
def jsOrS (a b : String) : String :=
  if a = "" then b else a

/-- The error object observed by the error handlers: the HTTP status,
the server body's optional `detail` field (`error.error?.detail`), the
`ErrorEvent` message when the failure is client-side
(`error.error instanceof ErrorEvent`), and the error's own `message`. -/
structure HttpErr where
  status : Nat
  detail : Option String
  clientMsg : Option String
  message : String
deriving DecidableEq, Repr

namespace ApiService

/-- `private defaultTimeout = 120000; // 2 minutes for AI operations`. -/
def defaultTimeout : Nat := 120000

/-- `timeout(timeoutMs || this.defaultTimeout)`: a missing argument (and a
zero, which is falsy in JavaScript) falls back to the default. -/
def effectiveTimeout (timeoutMs : Option Nat) : Nat :=
  match timeoutMs with
  | some t => if t = 0 then defaultTimeout else t
  | none => defaultTimeout

/-- Timeout used by `ApiService.get`. -/
def getTimeout (timeoutMs : Option Nat) : Nat := effectiveTimeout timeoutMs

/-- Timeout used by `ApiService.post`. -/
def postTimeout (timeoutMs : Option Nat) : Nat := effectiveTimeout timeoutMs

/-- Timeout used by `ApiService.put` (no override parameter exists). -/
def putTimeout : Nat := defaultTimeout

/-- Timeout used by `ApiService.delete` (no override parameter exists). -/
def deleteTimeout : Nat := defaultTimeout

/-- `ApiService.handleError`: `errorMessage = 'An error occurred'` then
client-side errors give `` `Error: ${error.error.message}` `` and
server-side errors give `error.error?.detail || error.message || 'Server error'`. -/
def handleError (error : HttpErr) : String :=
  match error.clientMsg with
  | some m => "Error: " ++ m
  | none => jsOr error.detail (jsOrS error.message "Server error")

end ApiService

namespace ImageService

/-- `generateImage` posts with an explicit `300000` (5 min) timeout override. -/
def generateImageTimeout : Nat := ApiService.postTimeout (some 300000)

/-- `ImageService.getImageUrl`: return the source unchanged when it is a
truthy string starting with `http://` or `https://`, otherwise prefix the
local image route. -/
def getImageUrl (imageSource : String) : String :=
  if imageSource ≠ "" ∧
      (startsWithStr imageSource "http://" ∨ startsWithStr imageSource "https://") then
    imageSource
  else
    "http://localhost:8000/images/" ++ imageSource

end ImageService

/-- A queued notification: `{ id, type, message, duration }`. -/
structure Notification where
  id : String
  type : String
  message : String
  duration : Nat
deriving DecidableEq, Repr

namespace NotificationService

/-- `show(type, message, duration)`: append one notification (with a fresh
id supplied by `generateId()`) to the queue. -/
def showNotification (q : List Notification) (freshId : String)
    (type : String) (message : String) (duration : Nat) : List Notification :=
  q ++ [⟨freshId, type, message, duration⟩]

/-- `error(message)` = `show('error', message, 7000)`. -/
def errorNotify (q : List Notification) (freshId : String)
    (message : String) : List Notification :=
  showNotification q freshId "error" message 7000

/-- `remove(id)`: keep the notifications whose id differs. -/
def remove (id : String) (q : List Notification) : List Notification :=
  q.filter (fun n => n.id ≠ id)

end NotificationService

namespace HttpErrorInterceptor

/-- `getServerErrorMessage`: the status-to-message switch, with
`error.error?.detail ||` fallbacks for 400, 500 and the default case. -/
def getServerErrorMessage (error : HttpErr) : String :=
  match error.status with
  | 0 => "Cannot connect to server. Please check your internet connection."
  | 400 => jsOr error.detail "Invalid request. Please check your input."
  | 401 => "Unauthorized. Please log in."
  | 403 => "Access forbidden."
  | 404 => "Resource not found."
  | 408 => "Request timeout. Please try again."
  | 500 => jsOr error.detail "Server error. Please try again later."
  | 503 => "Service temporarily unavailable."
  | s => jsOr error.detail ("Server error: " ++ toString s)

/-- The `errorMessage` computed inside the interceptor's `catchError`:
`Client Error: ...` when `error.error instanceof ErrorEvent`, otherwise
`getServerErrorMessage(error)`. -/
def errorMessage (error : HttpErr) : String :=
  match error.clientMsg with
  | some m => "Client Error: " ++ m
  | none => getServerErrorMessage error

/-- What one subscription of `next.handle(request)` does: complete, error
with an `HttpErrorResponse`, or stay outstanding past the client deadline
(the case an outer RxJS `timeout` operator converts into a `TimeoutError`). -/
inductive AttemptOutcome where
  | ok
  | fail (e : HttpErr)
  | hang
deriving DecidableEq, Repr

/-- Result of the `retry({ count, delay })` stage, recording how many
attempts were started and the delays inserted before each resubscription. -/
inductive RetryOutcome where
  | ok (attemptsUsed : Nat) (delays : List Nat)
  | failed (e : HttpErr) (attemptsUsed : Nat) (delays : List Nat)
  | hung (attemptsUsed : Nat) (delays : List Nat)
deriving DecidableEq, Repr

/-- RxJS `retry({ count, delay: delayMs })` over a source whose successive
subscriptions behave as `attempts 0`, `attempts 1`, …: on error, while
retries remain, wait `delayMs` and resubscribe; a hang is never seen as an
error, so it ends the stage. -/
def retryRun (delayMs : Nat) (attempts : Nat → AttemptOutcome) :
    Nat → Nat → List Nat → RetryOutcome
  | 0, idx, delays =>
    match attempts idx with
    | .ok => .ok (idx + 1) delays
    | .hang => .hung (idx + 1) delays
    | .fail e => .failed e (idx + 1) delays
  | r + 1, idx, delays =>
    match attempts idx with
    | .ok => .ok (idx + 1) delays
    | .hang => .hung (idx + 1) delays
    | .fail _ => retryRun delayMs attempts r (idx + 1) (delays ++ [delayMs])

/-- Terminal phase of one interceptor run. -/
inductive Phase where
  | ok
  | hung
  | errored (message : String)
deriving DecidableEq, Repr

/-- Observable outcome of one run of `HttpErrorInterceptor.intercept`:
how it ended, the attempts started, the retry delays, and the
notification queue afterwards. -/
structure InterceptOut where
  phase : Phase
  attemptsUsed : Nat
  delays : List Nat
  queue : List Notification
deriving DecidableEq, Repr

/-- `HttpErrorInterceptor.intercept`: `retry({ count: 1, delay: 1000,
resetOnSuccess: true })` then `catchError`, which computes the message,
calls `notificationService.error(errorMessage)` and rethrows
`new Error(errorMessage)`. The request's HTTP method is never inspected. -/
def intercept (method : String) (attempts : Nat → AttemptOutcome)
    (q : List Notification) (freshId : String) : InterceptOut :=
  match retryRun 1000 attempts 1 0 [] with
  | .ok n d => ⟨.ok, n, d, q⟩
  | .hung n d => ⟨.hung, n, d, q⟩
  | .failed e n d =>
    ⟨.errored (errorMessage e), n, d,
      NotificationService.errorNotify q freshId (errorMessage e)⟩

end HttpErrorInterceptor

/-- Result of a full wrapper call as seen by the subscribing component. -/
inductive CallResult where
  | ok
  | err (message : String)
deriving DecidableEq, Repr

/-- Observable outcome of a full `ApiService` call: result, attempts
started, retry delays, and the notification queue afterwards. -/
structure CallOutcome where
  result : CallResult
  attemptsUsed : Nat
  delays : List Nat
  queue : List Notification
deriving DecidableEq, Repr

/-- Message carried by the RxJS `TimeoutError` raised by the `timeout`
operator in `ApiService`. -/
def timeoutErrorMessage : String := "Timeout has occurred"

/-- `ApiService.post` composed over the interceptor chain. The `timeout`
operator and `catchError(this.handleError)` are piped onto the observable
returned by `HttpClient`, so they sit outside the interceptor: when a
subscription hangs, the deadline fires a `TimeoutError` (a plain error with
no `error` payload) that never passes through the interceptor's retry or
`catchError`; when the interceptor rethrows `new Error(message)`,
`handleError` receives it with `error.error` undefined. -/
def runPost (attempts : Nat → HttpErrorInterceptor.AttemptOutcome)
    (q : List Notification) (freshId : String) : CallOutcome :=
  match HttpErrorInterceptor.intercept "POST" attempts q freshId with
  | ⟨.ok, n, d, q2⟩ => ⟨.ok, n, d, q2⟩
  | ⟨.hung, n, d, q2⟩ =>
    ⟨.err (ApiService.handleError ⟨0, none, none, timeoutErrorMessage⟩), n, d, q2⟩
  | ⟨.errored msg, n, d, q2⟩ =>
    ⟨.err (ApiService.handleError ⟨0, none, none, msg⟩), n, d, q2⟩

/-- `ATSRequest` from shared/models/ats.model.ts. -/
structure ATSRequest where
  resume_text : String
  job_description : String
deriving DecidableEq, Repr

namespace AtsAnalyzerComponent

/-- The fields of `AtsAnalyzerComponent` that `analyzeResume` reads or
writes before any response arrives. -/
structure State where
  resumeText : String
  jobDescription : String
  loading : Bool
  error : String
deriving DecidableEq, Repr

/-- `analyzeResume()` up to the point the request is issued: an empty
`resumeText` or `jobDescription` (a falsy string in JavaScript) sets the
inline error and returns with no network call; otherwise the loading flag
is set, the error cleared, and the request object built and sent. -/
def analyzeResume (s : State) : State × Option ATSRequest :=
  if s.resumeText = "" ∨ s.jobDescription = "" then
    ({ s with error := "Please fill both fields" }, none)
  else
    ({ s with loading := true, error := "" },
      some ⟨s.resumeText, s.jobDescription⟩)

end AtsAnalyzerComponent

/-- `ImageGenerationResponse` from shared/models/image.model.ts, restricted
to the fields the component manipulates. -/
structure ImageGenerationResponse where
  image_url : String
  enhanced_prompt : String
  message : String
  prompt : Option String
  style : Option String
deriving DecidableEq, Repr

namespace ImageGenerationComponent

/-- The history update in `generateImage`'s success callback:
`this.history.unshift(response); if (this.history.length > 12)
this.history.pop();` — prepend, then drop the last entry when the list has
grown past 12. -/
def insertHistory (response : ImageGenerationResponse)
    (history : List ImageGenerationResponse) : List ImageGenerationResponse :=
  if (response :: history).length > 12 then (response :: history).dropLast
  else response :: history

end ImageGenerationComponent

/-- `Experience` from shared/models/resume.model.ts, with the fields the
components construct in `addExperience`. -/
structure Experience where
  title : String
  company : String
  duration : String
  responsibilities : List String
deriving DecidableEq, Repr

/-- `Education` from shared/models/resume.model.ts, with the fields the
components construct in `addEducation`. -/
structure Education where
  degree : String
  institution : String
  year : String
  gpa : String
deriving DecidableEq, Repr

namespace ResumeFormComponent

/-- `removeExperience(index)`: `splice(index, 1)` only when more than one
experience entry remains. -/
def removeExperience (experience : List Experience) (index : Nat) :
    List Experience :=
  if experience.length > 1 then experience.eraseIdx index else experience

/-- `removeResponsibility(expIndex, respIndex)` acting on the addressed
experience entry's responsibilities array: `splice(respIndex, 1)` only when
more than one responsibility remains. -/
def removeResponsibility (responsibilities : List String) (respIndex : Nat) :
    List String :=
  if responsibilities.length > 1 then responsibilities.eraseIdx respIndex
  else responsibilities

/-- `removeEducation(index)`: `splice(index, 1)` only when more than one
education entry remains. -/
def removeEducation (education : List Education) (index : Nat) :
    List Education :=
  if education.length > 1 then education.eraseIdx index else education

end ResumeFormComponent

namespace ResumeGeneratorComponent

/-- The `resumeData.experience` initial value: a single blank entry. -/
def initialExperience : List Experience := [⟨"", "", "", [""]⟩]

/-- The `resumeData.education` initial value: a single blank entry. -/
def initialEducation : List Education := [⟨"", "", "", ""⟩]

/-- `removeExperience(index)`: `splice(index, 1)` only when more than one
experience entry remains. -/
def removeExperience (experience : List Experience) (index : Nat) :
    List Experience :=
  if experience.length > 1 then experience.eraseIdx index else experience

/-- `removeResponsibility(expIndex, respIndex)` acting on the addressed
experience entry's responsibilities array: `splice(respIndex, 1)` only when
more than one responsibility remains. -/
def removeResponsibility (responsibilities : List String) (respIndex : Nat) :
    List String :=
  if responsibilities.length > 1 then responsibilities.eraseIdx respIndex
  else responsibilities

/-- `removeEducation(index)`: `splice(index, 1)` only when more than one
education entry remains. -/
def removeEducation (education : List Education) (index : Nat) :
    List Education :=
  if education.length > 1 then education.eraseIdx index else education

end ResumeGeneratorComponent

end Frontend

/-- Claim C10: `ImageService.getImageUrl` returns its input unchanged exactly when
the input is non-empty and starts with `http://` or `https://`; otherwise it
returns `http://localhost:8000/images/` followed by the input. -/
theorem getImageUrl_spec (s : String) :
    (Frontend.ImageService.getImageUrl s = s ↔
      s ≠ "" ∧ (Frontend.startsWithStr s "http://" ∨ Frontend.startsWithStr s "https://")) ∧
    (¬ (s ≠ "" ∧ (Frontend.startsWithStr s "http://" ∨ Frontend.startsWithStr s "https://")) →
      Frontend.ImageService.getImageUrl s = "http://localhost:8000/images/" ++ s) := by
  unfold Frontend.ImageService.getImageUrl
  by_cases hc : s ≠ "" ∧
    (Frontend.startsWithStr s "http://" ∨ Frontend.startsWithStr s "https://")
  · simp [hc]
  · simp only [hc, if_neg hc, iff_false, not_false_iff, and_true]
    constructor
    · intro habs
      have hlen := congrArg String.length habs
      simp [String.length_append] at hlen
      exact absurd hlen (by decide)
    · intro _
      rfl

/-- Claim C10 witness: evaluated on concrete inputs, a bare filename is
prefixed with the local image route and a full URL passes through unchanged. -/
theorem getImageUrl_spec_witness :
    Frontend.ImageService.getImageUrl "pic.png" =
      "http://localhost:8000/images/" ++ "pic.png" ∧
    Frontend.ImageService.getImageUrl "https://cdn.example.com/pic.png" =
      "https://cdn.example.com/pic.png" :=
  ⟨(getImageUrl_spec "pic.png").2 (by decide),
    (getImageUrl_spec "https://cdn.example.com/pic.png").1.mpr (by decide)⟩

/-- Claim C7: every wrapper call defaults to a 120000 ms timeout — `get`, `post`,
`put` and `delete` all use it when no override is given — and the
image-generation call overrides it to 300000 ms. -/
theorem apiService_timeouts :
    Frontend.ApiService.getTimeout none = 120000 ∧
    Frontend.ApiService.postTimeout none = 120000 ∧
    Frontend.ApiService.putTimeout = 120000 ∧
    Frontend.ApiService.deleteTimeout = 120000 ∧
    Frontend.ImageService.generateImageTimeout = 300000 := by
  refine ⟨rfl, rfl, rfl, rfl, rfl⟩

/-- Claim C5: removal from the notification queue is idempotent: removing an
identifier that no queued notification carries leaves the queue unchanged,
and removing the same identifier twice equals removing it once. -/
theorem notification_remove_idempotent (q : List Frontend.Notification) (id : String) :
    ((∀ n ∈ q, n.id ≠ id) → Frontend.NotificationService.remove id q = q) ∧
    Frontend.NotificationService.remove id (Frontend.NotificationService.remove id q) =
      Frontend.NotificationService.remove id q := by
  constructor
  · intro habs
    unfold Frontend.NotificationService.remove
    rw [List.filter_eq_self]
    intro a ha
    simpa using habs a ha
  · unfold Frontend.NotificationService.remove
    rw [List.filter_filter]
    simp

/-- Claim C5 witness: a concrete queue holding one notification with id `a` is
unchanged by removing the absent id `b`, and double removal of `b` equals
single removal. -/
theorem notification_remove_idempotent_witness :
    Frontend.NotificationService.remove "b" [⟨"a", "info", "hello", 5000⟩] =
      [(⟨"a", "info", "hello", 5000⟩ : Frontend.Notification)] ∧
    Frontend.NotificationService.remove "b"
        (Frontend.NotificationService.remove "b" [⟨"a", "info", "hello", 5000⟩]) =
      Frontend.NotificationService.remove "b" [⟨"a", "info", "hello", 5000⟩] :=
  ⟨(notification_remove_idempotent [⟨"a", "info", "hello", 5000⟩] "b").1 (by decide),
    (notification_remove_idempotent [⟨"a", "info", "hello", 5000⟩] "b").2⟩

open Frontend Frontend.HttpErrorInterceptor

theorem jsOr_ne_empty (d : Option String) (f : String) (hf : f ≠ "") :
    Frontend.jsOr d f ≠ "" := by
  cases d with
  | none => exact hf
  | some s =>
    by_cases hs : s = ""
    · simpa [Frontend.jsOr, hs] using hf
    · simpa [Frontend.jsOr, hs] using hs

theorem string_eq_empty_of_length (a : String) (h : a.length = 0) : a = "" := by
  cases a with
  | mk l =>
    have hl : l = [] := by simpa [String.length] using h
    subst hl
    rfl

theorem append_ne_empty_left (a b : String) (ha : a ≠ "") : a ++ b ≠ "" := by
  intro h
  have hlen := congrArg String.length h
  simp [String.length_append] at hlen
  exact ha (string_eq_empty_of_length a hlen.1)

theorem getServerErrorMessage_ne_empty (e : HttpErr) :
    getServerErrorMessage e ≠ "" := by
  unfold getServerErrorMessage
  split
  · decide
  · exact jsOr_ne_empty e.detail _ (by decide)
  · decide
  · decide
  · decide
  · decide
  · exact jsOr_ne_empty e.detail _ (by decide)
  · decide
  · exact jsOr_ne_empty e.detail _ (append_ne_empty_left _ _ (by decide))

theorem retryRun_of_fail0 (a : Nat → AttemptOutcome) (e : HttpErr)
    (h0 : a 0 = .fail e) :
    retryRun 1000 a 1 0 [] =
      match a 1 with
      | .ok => .ok 2 [1000]
      | .hang => .hung 2 [1000]
      | .fail e2 => .failed e2 2 [1000] := by
  cases h1 : a 1 <;> simp only [retryRun, h0, h1, List.nil_append]

theorem intercept_of_ok0 (method : String) (a : Nat → AttemptOutcome)
    (q : List Notification) (freshId : String) (h0 : a 0 = .ok) :
    intercept method a q freshId = ⟨.ok, 1, [], q⟩ := by
  simp only [intercept, retryRun, h0]

theorem intercept_of_hang0 (method : String) (a : Nat → AttemptOutcome)
    (q : List Notification) (freshId : String) (h0 : a 0 = .hang) :
    intercept method a q freshId = ⟨.hung, 1, [], q⟩ := by
  simp only [intercept, retryRun, h0]

theorem intercept_of_fail0 (method : String) (a : Nat → AttemptOutcome)
    (q : List Notification) (freshId : String) (e : HttpErr)
    (h0 : a 0 = .fail e) :
    intercept method a q freshId =
      match a 1 with
      | .ok => ⟨.ok, 2, [1000], q⟩
      | .hang => ⟨.hung, 2, [1000], q⟩
      | .fail e2 =>
        ⟨.errored (errorMessage e2), 2, [1000],
          NotificationService.errorNotify q freshId (errorMessage e2)⟩ := by
  unfold intercept
  rw [retryRun_of_fail0 a e h0]
  cases a 1 <;> rfl

theorem intercept_attemptsUsed_le_two (method : String)
    (a : Nat → AttemptOutcome) (q : List Notification) (freshId : String) :
    (intercept method a q freshId).attemptsUsed ≤ 2 := by
  cases h0 : a 0 with
  | ok =>
    rw [intercept_of_ok0 method a q freshId h0]
    show (1 : Nat) ≤ 2
    omega
  | hang =>
    rw [intercept_of_hang0 method a q freshId h0]
    show (1 : Nat) ≤ 2
    omega
  | fail e =>
    rw [intercept_of_fail0 method a q freshId e h0]
    cases a 1 <;> simp

theorem intercept_allFail_queue (method : String) (e : HttpErr)
    (q : List Notification) (freshId : String) :
    (intercept method (fun _ => AttemptOutcome.fail e) q freshId).queue =
      q ++ [⟨freshId, "error", errorMessage e, 7000⟩] := by
  rw [intercept_of_fail0 method _ q freshId e rfl]
  rfl

/-- Claim C1: a request that fails through `HttpErrorInterceptor` is retried
exactly once — the interceptor starts exactly two attempts, inserting a
single fixed 1000 ms delay before the retry — with no further retries (only
the first two attempts are ever consulted), and the behaviour is the same
for every HTTP method. -/
theorem interceptor_retries_once
    (method method2 : String) (attempts attempts2 : Nat → AttemptOutcome)
    (q : List Notification) (freshId : String) (e : HttpErr)
    (h0 : attempts 0 = .fail e)
    (h20 : attempts2 0 = attempts 0) (h21 : attempts2 1 = attempts 1) :
    (intercept method attempts q freshId).attemptsUsed = 2 ∧
    (intercept method attempts q freshId).delays = [1000] ∧
    intercept method attempts q freshId = intercept method2 attempts q freshId ∧
    intercept method attempts2 q freshId = intercept method attempts q freshId := by
  have h02 : attempts2 0 = .fail e := by rw [h20, h0]
  rw [intercept_of_fail0 method attempts q freshId e h0,
    intercept_of_fail0 method2 attempts q freshId e h0,
    intercept_of_fail0 method attempts2 q freshId e h02, h21]
  cases attempts 1 <;> exact ⟨rfl, rfl, rfl, rfl⟩

/-- Claim C1 witness: a concrete GET whose two attempts both fail with a 500
makes exactly two attempts with a single 1000 ms delay, and a POST with the
same attempts behaves identically. -/
theorem interceptor_retries_once_witness :
    (intercept "GET" (fun _ => .fail ⟨500, none, none, "boom"⟩) [] "n1").attemptsUsed = 2 ∧
    (intercept "GET" (fun _ => .fail ⟨500, none, none, "boom"⟩) [] "n1").delays = [1000] ∧
    intercept "GET" (fun _ => .fail ⟨500, none, none, "boom"⟩) [] "n1" =
      intercept "POST" (fun _ => .fail ⟨500, none, none, "boom"⟩) [] "n1" ∧
    intercept "GET" (fun _ => .fail ⟨500, none, none, "boom"⟩) [] "n1" =
      intercept "GET" (fun _ => .fail ⟨500, none, none, "boom"⟩) [] "n1" :=
  interceptor_retries_once "GET" "POST" (fun _ => .fail ⟨500, none, none, "boom"⟩)
    (fun _ => .fail ⟨500, none, none, "boom"⟩) [] "n1" ⟨500, none, none, "boom"⟩
    rfl rfl rfl

/-- Claim C3: for an HTTP error whose status lies in
{400, 401, 403, 404, 408, 500, 503, 0}, the interceptor's final-failure
handler produces a non-empty message, prefers a non-empty server-supplied
`detail` string for 400 and 500, and enqueues exactly one notification. -/
theorem interceptor_status_classification
    (s : Nat) (d : Option String) (d2 m : String)
    (q : List Notification) (freshId : String)
    (hs : s ∈ [400, 401, 403, 404, 408, 500, 503, 0]) :
    errorMessage ⟨s, d, none, m⟩ ≠ "" ∧
    ((s = 400 ∨ s = 500) → d = some d2 → d2 ≠ "" →
      errorMessage ⟨s, d, none, m⟩ = d2) ∧
    (intercept "GET" (fun _ => .fail ⟨s, d, none, m⟩) q freshId).queue.length =
      q.length + 1 := by
  refine ⟨?_, ?_, ?_⟩
  · exact getServerErrorMessage_ne_empty ⟨s, d, none, m⟩
  · rintro (rfl | rfl) rfl hne <;>
      simp [errorMessage, getServerErrorMessage, jsOr, hne]
  · rw [intercept_allFail_queue]
    simp

/-- Claim C3 witness: a 400 with a server-supplied detail string yields that
detail as a non-empty message and appends exactly one notification to an
empty queue. -/
theorem interceptor_status_classification_witness :
    errorMessage ⟨400, some "Prompt too long", none, "raw"⟩ ≠ "" ∧
    errorMessage ⟨400, some "Prompt too long", none, "raw"⟩ = "Prompt too long" ∧
    (intercept "GET" (fun _ => .fail ⟨400, some "Prompt too long", none, "raw"⟩)
        [] "n1").queue.length = ([] : List Notification).length + 1 :=
  ⟨(interceptor_status_classification 400 (some "Prompt too long") "Prompt too long"
      "raw" [] "n1" (by decide)).1,
    (interceptor_status_classification 400 (some "Prompt too long") "Prompt too long"
      "raw" [] "n1" (by decide)).2.1 (Or.inl rfl) rfl (by decide),
    (interceptor_status_classification 400 (some "Prompt too long") "Prompt too long"
      "raw" [] "n1" (by decide)).2.2⟩

theorem runPost_attemptsUsed_eq (attempts : Nat → AttemptOutcome)
    (q : List Notification) (freshId : String) :
    (runPost attempts q freshId).attemptsUsed =
      (intercept "POST" attempts q freshId).attemptsUsed := by
  unfold runPost
  split <;> simp_all

/-- Claim C4 counterexample: a `POST /ats/analyze` call on which every
attempt outlasts the client deadline — the `timeout` operator in
`ApiService.post` fires — is NOT retried (one attempt, no delay), enqueues
no notification, and surfaces the raw `TimeoutError` text
`Timeout has occurred`, which differs from the timeout-class message
`Request timeout. Please try again.` of the status classification. -/
theorem post_timeout_counterexample :
    runPost (fun _ => .hang) [] "n1" =
      ⟨.err "Timeout has occurred", 1, [], []⟩ ∧
    "Timeout has occurred" ≠ "Request timeout. Please try again." := by
  exact ⟨rfl, by decide⟩

/-- Claim C4 (amended): the RxJS `timeout` operator of `ApiService.post`
sits outside the interceptor, so a call whose attempt hangs past the client
deadline is not retried and surfaces the `TimeoutError`'s own text; only a
server-returned 408 response is retried once after 1000 ms and then
surfaces the timeout-class message of the status classification. -/
theorem post_timeout_behaviour
    (attempts : Nat → AttemptOutcome) (q : List Notification) (freshId : String)
    (e0 e1 : HttpErr) :
    (attempts 0 = .hang →
      runPost attempts q freshId = ⟨.err timeoutErrorMessage, 1, [], q⟩) ∧
    (attempts 0 = .fail e0 → attempts 1 = .fail e1 →
      e1.status = 408 → e1.clientMsg = none →
      runPost attempts q freshId =
        ⟨.err "Request timeout. Please try again.", 2, [1000],
          Frontend.NotificationService.errorNotify q freshId
            "Request timeout. Please try again."⟩) := by
  constructor
  · intro h0
    unfold runPost
    rw [intercept_of_hang0 "POST" attempts q freshId h0]
    rfl
  · intro h0 h1 hst hcl
    have hmsg : errorMessage e1 = "Request timeout. Please try again." := by
      obtain ⟨s1, d1, c1, m1⟩ := e1
      simp only at hst hcl
      subst hst
      subst hcl
      rfl
    unfold runPost
    rw [intercept_of_fail0 "POST" attempts q freshId e0 h0, h1]
    simp only [hmsg]
    rfl

/-- Claim C4 witness: the amended behaviour evaluated on concrete runs — a
hanging call yields the timeout error after one attempt, and a double 408
yields the classified timeout message after the single 1000 ms retry. -/
theorem post_timeout_behaviour_witness :
    runPost (fun _ => .hang) [] "n1" =
      ⟨.err timeoutErrorMessage, 1, [], []⟩ ∧
    runPost (fun _ => .fail ⟨408, none, none, "raw"⟩) [] "n2" =
      ⟨.err "Request timeout. Please try again.", 2, [1000],
        Frontend.NotificationService.errorNotify [] "n2"
          "Request timeout. Please try again."⟩ :=
  ⟨(post_timeout_behaviour (fun _ => .hang) [] "n1"
      ⟨408, none, none, "raw"⟩ ⟨408, none, none, "raw"⟩).1 rfl,
    (post_timeout_behaviour (fun _ => .fail ⟨408, none, none, "raw"⟩) [] "n2"
      ⟨408, none, none, "raw"⟩ ⟨408, none, none, "raw"⟩).2 rfl rfl rfl rfl⟩

/-- Claim C8 counterexample: `ApiService.handleError`, on a 404 response
with no server-supplied `detail`, returns the error's own raw message — it
does not fall back to the status-code lookup table, whose 404 entry is
`Resource not found.`. -/
theorem handleError_no_status_table_counterexample :
    ApiService.handleError ⟨404, none, none, "Http failure response: 404 Not Found"⟩ =
      "Http failure response: 404 Not Found" ∧
    getServerErrorMessage ⟨404, none, none, "Http failure response: 404 Not Found"⟩ =
      "Resource not found." ∧
    ApiService.handleError ⟨404, none, none, "Http failure response: 404 Not Found"⟩ ≠
      getServerErrorMessage ⟨404, none, none, "Http failure response: 404 Not Found"⟩ := by
  exact ⟨rfl, rfl, by decide⟩

/-- Claim C8 (amended): `ApiService` performs no retries of its own — a
full `post` makes exactly the attempts the interceptor makes, never more
than two — and `handleError` translates any failure into a single message
taken from the server-provided `detail` field when present and non-empty,
else the error's own message, else the constant `Server error`; the HTTP
status never influences the result (the status-code lookup table lives in
the interceptor, not in `ApiService`). -/
theorem handleError_translation
    (e : HttpErr) (st : Nat) (d2 : String)
    (attempts : Nat → AttemptOutcome) (q : List Notification) (freshId : String) :
    ApiService.handleError { e with status := st } = ApiService.handleError e ∧
    (e.clientMsg = none → e.detail = some d2 → d2 ≠ "" →
      ApiService.handleError e = d2) ∧
    (e.clientMsg = none → e.detail = none → e.message ≠ "" →
      ApiService.handleError e = e.message) ∧
    (e.clientMsg = none → e.detail = none → e.message = "" →
      ApiService.handleError e = "Server error") ∧
    (runPost attempts q freshId).attemptsUsed =
      (intercept "POST" attempts q freshId).attemptsUsed ∧
    (runPost attempts q freshId).attemptsUsed ≤ 2 := by
  obtain ⟨s0, d0, c0, m0⟩ := e
  refine ⟨rfl, ?_, ?_, ?_, runPost_attemptsUsed_eq attempts q freshId, ?_⟩
  · intro hc hd hne
    simp only at hc hd
    subst hc
    subst hd
    simp [ApiService.handleError, jsOr, hne]
  · intro hc hd hne
    simp only at hc hd
    subst hc
    subst hd
    simp [ApiService.handleError, jsOr, jsOrS, hne]
  · intro hc hd hm
    simp only at hc hd hm
    subst hc
    subst hd
    subst hm
    rfl
  · rw [runPost_attemptsUsed_eq attempts q freshId]
    exact intercept_attemptsUsed_le_two "POST" attempts q freshId

/-- Claim C8 witness: the amended translation evaluated concretely — the
status is ignored, a non-empty detail wins, the raw message is the first
fallback, `Server error` the last, and a concrete failing POST makes the
same two attempts as the interceptor. -/
theorem handleError_translation_witness :
    ApiService.handleError ⟨503, some "quota", none, "msg"⟩ =
      ApiService.handleError ⟨404, some "quota", none, "msg"⟩ ∧
    ApiService.handleError ⟨404, some "quota", none, "msg"⟩ = "quota" ∧
    ApiService.handleError ⟨404, none, none, "msg"⟩ = "msg" ∧
    ApiService.handleError ⟨404, none, none, ""⟩ = "Server error" ∧
    (runPost (fun _ => .fail ⟨500, none, none, "boom"⟩) [] "n1").attemptsUsed =
      (intercept "POST" (fun _ => .fail ⟨500, none, none, "boom"⟩) [] "n1").attemptsUsed ∧
    (runPost (fun _ => .fail ⟨500, none, none, "boom"⟩) [] "n1").attemptsUsed ≤ 2 :=
  ⟨(handleError_translation ⟨404, some "quota", none, "msg"⟩ 503 "quota"
      (fun _ => .fail ⟨500, none, none, "boom"⟩) [] "n1").1,
    (handleError_translation ⟨404, some "quota", none, "msg"⟩ 503 "quota"
      (fun _ => .fail ⟨500, none, none, "boom"⟩) [] "n1").2.1 rfl rfl (by decide),
    (handleError_translation ⟨404, none, none, "msg"⟩ 503 "quota"
      (fun _ => .fail ⟨500, none, none, "boom"⟩) [] "n1").2.2.1 rfl rfl (by decide),
    (handleError_translation ⟨404, none, none, ""⟩ 503 "quota"
      (fun _ => .fail ⟨500, none, none, "boom"⟩) [] "n1").2.2.2.1 rfl rfl rfl,
    (handleError_translation ⟨404, none, none, ""⟩ 503 "quota"
      (fun _ => .fail ⟨500, none, none, "boom"⟩) [] "n1").2.2.2.2.1,
    (handleError_translation ⟨404, none, none, ""⟩ 503 "quota"
      (fun _ => .fail ⟨500, none, none, "boom"⟩) [] "n1").2.2.2.2.2⟩

theorem guarded_eraseIdx_ne_nil {α : Type} (l : List α) (i : Nat) (h : l ≠ []) :
    (if l.length > 1 then l.eraseIdx i else l) ≠ [] := by
  by_cases hl : l.length > 1
  · rw [if_pos hl]
    intro habs
    have hlen := congrArg List.length habs
    rw [List.length_eraseIdx] at hlen
    simp only [List.length_nil] at hlen
    split at hlen <;> omega
  · rw [if_neg hl]
    exact h

/-- Claim C2: the image-generation history stays within 12 entries: under
the invariant that the history holds at most 12 entries, an insertion keeps
it at most 12, always places the new response at index 0, and when the
history already holds exactly 12 entries it evicts exactly the entry at
index 11, keeping the other 11 in order. -/
theorem insertHistory_spec (r : ImageGenerationResponse)
    (h : List ImageGenerationResponse) (hle : h.length ≤ 12) :
    (ImageGenerationComponent.insertHistory r h).length ≤ 12 ∧
    (ImageGenerationComponent.insertHistory r h).head? = some r ∧
    (h.length = 12 →
      ImageGenerationComponent.insertHistory r h = r :: h.take 11) := by
  unfold ImageGenerationComponent.insertHistory
  by_cases h12 : h.length = 12
  · have hgt : (r :: h).length > 12 := by simp [h12]
    rw [if_pos hgt]
    have hdl : (r :: h).dropLast = r :: h.take 11 := by
      rw [List.dropLast_eq_take]
      simp only [List.length_cons, h12, Nat.add_sub_cancel]
      rw [show (12 : Nat) = 11 + 1 from rfl, List.take_succ_cons]
    refine ⟨?_, ?_, fun _ => hdl⟩
    · rw [hdl]
      simp [List.length_take, h12]
    · rw [hdl]
      rfl
  · have hngt : ¬ (r :: h).length > 12 := by
      simp only [List.length_cons]
      omega
    rw [if_neg hngt]
    refine ⟨?_, rfl, fun hc => absurd hc h12⟩
    simp only [List.length_cons]
    omega

/-- Claim C2 witness: inserting a 13th response into a concrete history of
12 entries keeps the length at 12, puts the new response at the front, and
drops exactly the old index 11. -/
theorem insertHistory_spec_witness :
    (ImageGenerationComponent.insertHistory ⟨"u1", "e1", "m1", none, none⟩
        (List.replicate 12 ⟨"u0", "e0", "m0", none, none⟩)).length ≤ 12 ∧
    (ImageGenerationComponent.insertHistory ⟨"u1", "e1", "m1", none, none⟩
        (List.replicate 12 ⟨"u0", "e0", "m0", none, none⟩)).head? =
      some ⟨"u1", "e1", "m1", none, none⟩ ∧
    ImageGenerationComponent.insertHistory ⟨"u1", "e1", "m1", none, none⟩
        (List.replicate 12 ⟨"u0", "e0", "m0", none, none⟩) =
      ⟨"u1", "e1", "m1", none, none⟩ ::
        (List.replicate 12
          (⟨"u0", "e0", "m0", none, none⟩ : ImageGenerationResponse)).take 11 :=
  ⟨(insertHistory_spec ⟨"u1", "e1", "m1", none, none⟩
      (List.replicate 12 ⟨"u0", "e0", "m0", none, none⟩) (by decide)).1,
    (insertHistory_spec ⟨"u1", "e1", "m1", none, none⟩
      (List.replicate 12 ⟨"u0", "e0", "m0", none, none⟩) (by decide)).2.1,
    (insertHistory_spec ⟨"u1", "e1", "m1", none, none⟩
      (List.replicate 12 ⟨"u0", "e0", "m0", none, none⟩) (by decide)).2.2 (by decide)⟩

/-- Claim C6: `analyzeResume` with an empty `resumeText` or an empty
`jobDescription` sets the inline validation error and issues no request;
a request is issued exactly when both fields are non-empty, and then it
carries them as `resume_text` and `job_description`. -/
theorem analyzeResume_validation (s : AtsAnalyzerComponent.State) :
    (s.resumeText = "" ∨ s.jobDescription = "" →
      (AtsAnalyzerComponent.analyzeResume s).2 = none ∧
      (AtsAnalyzerComponent.analyzeResume s).1.error = "Please fill both fields") ∧
    ((AtsAnalyzerComponent.analyzeResume s).2.isSome ↔
      s.resumeText ≠ "" ∧ s.jobDescription ≠ "") ∧
    (s.resumeText ≠ "" → s.jobDescription ≠ "" →
      (AtsAnalyzerComponent.analyzeResume s).2 =
        some ⟨s.resumeText, s.jobDescription⟩) := by
  unfold AtsAnalyzerComponent.analyzeResume
  by_cases hc : s.resumeText = "" ∨ s.jobDescription = ""
  · rw [if_pos hc]
    refine ⟨fun _ => ⟨rfl, rfl⟩, ?_, ?_⟩
    · simp only [Option.isSome_none, Bool.false_eq_true, false_iff]
      rintro ⟨h1, h2⟩
      rcases hc with hc | hc
      · exact h1 hc
      · exact h2 hc
    · intro h1 h2
      rcases hc with hc | hc
      · exact absurd hc h1
      · exact absurd hc h2
  · rw [if_neg hc]
    push_neg at hc
    refine ⟨?_, ?_, fun _ _ => rfl⟩
    · rintro (h | h)
      · exact absurd h hc.1
      · exact absurd h hc.2
    · simp [hc.1, hc.2]

/-- Claim C6 witness: a concrete submission with empty resume text
short-circuits with the inline error and no request, while a fully filled
form issues the request with both fields. -/
theorem analyzeResume_validation_witness :
    (AtsAnalyzerComponent.analyzeResume ⟨"", "jd", false, ""⟩).2 = none ∧
    (AtsAnalyzerComponent.analyzeResume ⟨"", "jd", false, ""⟩).1.error =
      "Please fill both fields" ∧
    (AtsAnalyzerComponent.analyzeResume ⟨"cv", "jd", false, ""⟩).2 =
      some ⟨"cv", "jd"⟩ :=
  ⟨((analyzeResume_validation ⟨"", "jd", false, ""⟩).1 (Or.inl rfl)).1,
    ((analyzeResume_validation ⟨"", "jd", false, ""⟩).1 (Or.inl rfl)).2,
    (analyzeResume_validation ⟨"cv", "jd", false, ""⟩).2.2 (by decide) (by decide)⟩

/-- Claim C9: in both the resume form component and the resume generator
component, the experience list, the education list, and a responsibilities
list are never emptied: starting from the non-empty initial lists, every
remove operation maps a non-empty list to a non-empty list because it only
splices when more than one entry remains. -/
theorem resume_lists_never_empty
    (exps exps2 : List Experience) (resp resp2 : List String)
    (edus edus2 : List Education) (i j k i2 j2 k2 : Nat) :
    ResumeGeneratorComponent.initialExperience ≠ [] ∧
    ResumeGeneratorComponent.initialEducation ≠ [] ∧
    (exps ≠ [] → ResumeFormComponent.removeExperience exps i ≠ []) ∧
    (resp ≠ [] → ResumeFormComponent.removeResponsibility resp j ≠ []) ∧
    (edus ≠ [] → ResumeFormComponent.removeEducation edus k ≠ []) ∧
    (exps2 ≠ [] → ResumeGeneratorComponent.removeExperience exps2 i2 ≠ []) ∧
    (resp2 ≠ [] → ResumeGeneratorComponent.removeResponsibility resp2 j2 ≠ []) ∧
    (edus2 ≠ [] → ResumeGeneratorComponent.removeEducation edus2 k2 ≠ []) := by
  refine ⟨by decide, by decide, ?_, ?_, ?_, ?_, ?_, ?_⟩
  · exact guarded_eraseIdx_ne_nil exps i
  · exact guarded_eraseIdx_ne_nil resp j
  · exact guarded_eraseIdx_ne_nil edus k
  · exact guarded_eraseIdx_ne_nil exps2 i2
  · exact guarded_eraseIdx_ne_nil resp2 j2
  · exact guarded_eraseIdx_ne_nil edus2 k2

/-- Claim C9 witness: on concrete singleton lists every remove operation of
both components refuses to delete the last entry. -/
theorem resume_lists_never_empty_witness :
    ResumeGeneratorComponent.initialExperience ≠ [] ∧
    ResumeGeneratorComponent.initialEducation ≠ [] ∧
    ResumeFormComponent.removeExperience [⟨"t", "c", "d", ["r"]⟩] 0 ≠ [] ∧
    ResumeFormComponent.removeResponsibility ["r"] 0 ≠ [] ∧
    ResumeFormComponent.removeEducation [⟨"deg", "inst", "2024", "4.0"⟩] 0 ≠ [] ∧
    ResumeGeneratorComponent.removeExperience [⟨"t", "c", "d", ["r"]⟩] 0 ≠ [] ∧
    ResumeGeneratorComponent.removeResponsibility ["r"] 0 ≠ [] ∧
    ResumeGeneratorComponent.removeEducation [⟨"deg", "inst", "2024", "4.0"⟩] 0 ≠ [] :=
  ⟨(resume_lists_never_empty [⟨"t", "c", "d", ["r"]⟩] [⟨"t", "c", "d", ["r"]⟩]
      ["r"] ["r"] [⟨"deg", "inst", "2024", "4.0"⟩] [⟨"deg", "inst", "2024", "4.0"⟩]
      0 0 0 0 0 0).1,
    (resume_lists_never_empty [⟨"t", "c", "d", ["r"]⟩] [⟨"t", "c", "d", ["r"]⟩]
      ["r"] ["r"] [⟨"deg", "inst", "2024", "4.0"⟩] [⟨"deg", "inst", "2024", "4.0"⟩]
      0 0 0 0 0 0).2.1,
    (resume_lists_never_empty [⟨"t", "c", "d", ["r"]⟩] [⟨"t", "c", "d", ["r"]⟩]
      ["r"] ["r"] [⟨"deg", "inst", "2024", "4.0"⟩] [⟨"deg", "inst", "2024", "4.0"⟩]
      0 0 0 0 0 0).2.2.1 (by decide),
    (resume_lists_never_empty [⟨"t", "c", "d", ["r"]⟩] [⟨"t", "c", "d", ["r"]⟩]
      ["r"] ["r"] [⟨"deg", "inst", "2024", "4.0"⟩] [⟨"deg", "inst", "2024", "4.0"⟩]
      0 0 0 0 0 0).2.2.2.1 (by decide),
    (resume_lists_never_empty [⟨"t", "c", "d", ["r"]⟩] [⟨"t", "c", "d", ["r"]⟩]
      ["r"] ["r"] [⟨"deg", "inst", "2024", "4.0"⟩] [⟨"deg", "inst", "2024", "4.0"⟩]
      0 0 0 0 0 0).2.2.2.2.1 (by decide),
    (resume_lists_never_empty [⟨"t", "c", "d", ["r"]⟩] [⟨"t", "c", "d", ["r"]⟩]
      ["r"] ["r"] [⟨"deg", "inst", "2024", "4.0"⟩] [⟨"deg", "inst", "2024", "4.0"⟩]
      0 0 0 0 0 0).2.2.2.2.2.1 (by decide),
    (resume_lists_never_empty [⟨"t", "c", "d", ["r"]⟩] [⟨"t", "c", "d", ["r"]⟩]
      ["r"] ["r"] [⟨"deg", "inst", "2024", "4.0"⟩] [⟨"deg", "inst", "2024", "4.0"⟩]
      0 0 0 0 0 0).2.2.2.2.2.2.1 (by decide),
    (resume_lists_never_empty [⟨"t", "c", "d", ["r"]⟩] [⟨"t", "c", "d", ["r"]⟩]
      ["r"] ["r"] [⟨"deg", "inst", "2024", "4.0"⟩] [⟨"deg", "inst", "2024", "4.0"⟩]
      0 0 0 0 0 0).2.2.2.2.2.2.2 (by decide)⟩
